import Mathlib

/-!
Verification of the data-integrity guard and decision pipeline of the
2026ROHSTOFFE repository, as a shallow embedding in Lean 4.

Modelling conventions:
- Python floats are modelled as `ℚ` where only ordering/arithmetic on
  decimal literals matters (decision thresholds), and as `ℝ` where the
  code applies transcendental functions (the score model).
- Pandas DataFrames are modelled by an abstract `DFrame` record carrying
  exactly the observations the guard code makes about a frame: its row
  count, its column names, its last index entry (an `Except` value whose
  error case models an exception inside the `try/except` around
  `df.index[-1]`, and whose ok case is either a timestamp or a
  successfully extracted non-datetime value), and a predicate telling
  whether the last entry of a column is NaN.  The guards themselves return
  `Except` values: on a nonempty frame with an extractable non-datetime
  index the source raises an uncaught AttributeError at the
  `last_bar_dt.tzinfo` access, modelled by the error result.
- Timestamps are modelled at whole-second resolution; `datetime.now` is an
  explicit `now` parameter.
- The score model is a real-number idealization.  It is faithful on price
  windows of strictly positive prices; on non-positive prices `np.log`
  produces NaN (without raising) and the NaN propagates to the returned
  score, so the score-model theorems below restrict to positive prices.
- Python `round(x, 3)` is round-to-nearest; at exact ties Python rounds
  half to even while Mathlib's `round` rounds half up.  Every statement
  proved below is tie-free or holds under both conventions.
-/

namespace DecisionEngine

/-- Embedding of `decision_engine.decide` (src/decision_engine.py).
Returns the `(signal, explanation)` pair.  The score is a `ℚ`; all
thresholds in the source are decimal literals, represented exactly. -/
def decide (asset : String) (score : ℚ) : String × String :=
  if asset = "GOLD" then
    if score ≥ 0.55 then ("LONG_FULL", "score >= 0.55 → 100 % Long")
    else if score ≥ 0.53 then ("LONG_HALF", "0.53 ≤ score < 0.55 → 50 % Long")
    else ("NO_TRADE", "score < 0.53 → no trade")
  else if asset = "SILVER" then
    if score ≥ 0.96 then ("LONG", "score >= 0.96 → Long allowed")
    else ("NO_TRADE", "score < 0.96 → ignore")
  else if asset = "COPPER" then
    if score ≥ 0.56 then ("LONG", "score >= 0.56 → Long allowed")
    else ("NO_TRADE", "score < 0.56 → no trade")
  else if asset = "NATURAL GAS" then
    if score ≥ 0.56 then ("LONG", "score >= 0.56 → Long")
    else if score ≤ 0.44 then ("SHORT", "score ≤ 0.44 → Short")
    else ("NO_TRADE", "0.44 < score < 0.56 → no trade")
  else ("NO_TRADE", "unknown asset")

end DecisionEngine

namespace ModelCore

/-- Embedding of `np.diff`: consecutive differences `a[i+1] - a[i]`. -/
def npDiff (l : List ℝ) : List ℝ := List.zipWith (fun a b => b - a) l l.tail

/-- Arithmetic mean of a list (as used by `np.std`). -/
noncomputable def listMean (l : List ℝ) : ℝ := l.sum / l.length

/-- Embedding of `np.std`: population standard deviation. -/
noncomputable def npStd (l : List ℝ) : ℝ :=
  Real.sqrt ((l.map (fun x => (x - listMean l) ^ 2)).sum / l.length)

/-- Embedding of Python `round(x, 3)` (see header note on tie behaviour). -/
noncomputable def round3 (x : ℝ) : ℝ := (round (x * 1000) : ℤ) / 1000

/-- Embedding of `model_core.compute_score` (src/model_core.py), on the
`np.ndarray` input shape (a list of closing prices).  Mirrors the source:
early return 0.50 below 30 observations; 20- and 5-bar returns; volatility
as std of log-returns over the last 21 prices plus the 1e-6 floor;
tanh-squashed weighted combination; affine map and rounding.  The real
model is faithful where the float program computes real numbers: for 30+
observations whose last 21 prices are strictly positive.  On non-positive
prices the program's `np.log` yields NaN (no exception) and the NaN
propagates to the returned score, a behaviour real arithmetic cannot
express; theorems about values of this function therefore carry a
positivity hypothesis (the short-input early return needs none, as it
precedes all arithmetic). -/
noncomputable def compute_score (p : List ℝ) : ℝ :=
  if p.length < 30 then 0.50
  else
    let n := p.length
    let r_20 := (p.getD (n - 1) 0 - p.getD (n - 21) 0) / p.getD (n - 21) 0
    let r_5 := (p.getD (n - 1) 0 - p.getD (n - 6) 0) / p.getD (n - 6) 0
    let rets := npDiff ((p.drop (n - 21)).map Real.log)
    let vol := npStd rets + 1e-6
    let m20 := r_20 / (vol * Real.sqrt 20)
    let m5 := r_5 / (vol * Real.sqrt 5)
    let core := 0.65 * Real.tanh (m20 * 0.8) + 0.35 * Real.tanh (m5 * 1.2)
    round3 (0.5 + core * 0.25)

/-- Thirty closing prices growing geometrically, `exp 0, exp 1, …, exp 29`
(each bar is `e ≈ 2.718` times the previous one).  A concrete, finite input
exercising the extreme-momentum behaviour of the score. -/
noncomputable def cexPrices : List ℝ :=
  [Real.exp 0, Real.exp 1, Real.exp 2, Real.exp 3, Real.exp 4,
    Real.exp 5, Real.exp 6, Real.exp 7, Real.exp 8, Real.exp 9,
    Real.exp 10, Real.exp 11, Real.exp 12, Real.exp 13, Real.exp 14,
    Real.exp 15, Real.exp 16, Real.exp 17, Real.exp 18, Real.exp 19,
    Real.exp 20, Real.exp 21, Real.exp 22, Real.exp 23, Real.exp 24,
    Real.exp 25, Real.exp 26, Real.exp 27, Real.exp 28, Real.exp 29]

end ModelCore

/-- Timestamp of a frame's last index entry: either timezone-naive
wall-clock seconds or timezone-aware absolute UTC epoch seconds. -/
inductive TS : Type
  | naive (wall : Int)
  | aware (epoch : Int)
deriving DecidableEq

/-- Value of a frame's last index entry as extraction delivers it: a
timestamp (naive or aware), or a successfully extracted non-datetime value
such as the integer of a default RangeIndex, a string, or a Period —
`other` values carry only a description and have no `tzinfo` attribute. -/
inductive IndexVal : Type
  | ts (t : TS)
  | other (s : String)
deriving DecidableEq

/-- Abstract pandas DataFrame, carrying exactly what the guard code
observes about a frame: `len(df)`, `df.columns`, `df.index[-1]` (the
`error` case models an exception during extraction, swallowed by the
surrounding `try/except`; the `ok (other _)` case a successful extraction
of a non-datetime index value), and whether `pd.isna(df[c].iloc[-1])`
holds for column `c` (meaningful for columns present in `cols` and
`rows > 0`). -/
structure DFrame : Type where
  rows : Nat
  cols : List String
  indexLast : Except String IndexVal
  nanLast : String → Bool

/-- Lines 135–139 of src/signal_guard.py (and 73–77 of src/main.py): a
timezone-naive timestamp is tagged as UTC in BOTH branches of the
`assume_index_is_utc` conditional; an aware timestamp is kept as is. -/
def resolveNaiveUtc (assumeUtc : Bool) : TS → Int
  | TS.naive w => if assumeUtc then w else w
  | TS.aware e => e

/-- Python `sep.join(parts)`. -/
def joinSep (sep : String) : List String → String
  | [] => ""
  | [x] => x
  | x :: y :: xs => x ++ sep ++ joinSep sep (y :: xs)

namespace SignalGuard

/-- Embedding of the `SignalAudit` dataclass (src/signal_guard.py).  The
`time_local` field (a wall-clock rendering of the run time) is omitted;
`last_bar` keeps the resolved timestamp instead of its local-time string
rendering, with "NA" becoming `none`. -/
structure SignalAudit where
  asset : String
  data_ok : Bool
  last_bar : Option TS
  age_s : Int
  rows : Nat
  nan_last : Nat
  stale : Nat
  history_short : Nat
  signal_raw : String
  signal_trade : String
  reason : String
deriving DecidableEq

/-- Embedding of `audit_and_format_signal` (src/signal_guard.py, lines
71–191), mirroring the control flow and the order of `reasons.append`
calls.  `now` is `datetime.now(timezone.utc)` in epoch seconds.  The
function is fallible: on a nonempty frame whose last index entry is a
successfully extracted non-datetime value, the stale-check section reads
`last_bar_dt.tzinfo` (source line 135) outside any `try/except`, which
raises an uncaught AttributeError — modelled by the `Except.error`
result. -/
def audit_and_format_signal (asset : String) (df : Option DFrame)
    (signal_raw : String) (timeframe_seconds max_stale_multiplier : Int)
    (min_rows : Nat) (required_cols critical_last_cols : List String)
    (assume_index_is_utc : Bool) (now : Int) : Except String SignalAudit :=
  -- basic data checks (source lines 92–120); each `if` that appends a
  -- reason in the source also sets `data_ok = False`, so every check
  -- yields its (reasons, ok) contribution
  let basic : List String × Bool × Nat × Option IndexVal × Nat :=
    match df with
    | none => (["EMPTY_DF"], false, 0, none, 0)
    | some d =>
      if d.rows = 0 then (["EMPTY_DF"], false, 0, none, 0)
      else
        let missing := required_cols.filter (fun c => !(d.cols.contains c))
        let mres : List String × Bool :=
          if missing.isEmpty then ([], true)
          else (["MISSING_COLS:" ++ joinSep "," missing], false)
        let hres : List String × Bool × Nat :=
          if d.rows < min_rows then (["HISTORY_SHORT"], false, 1) else ([], true, 0)
        match d.indexLast with
        | Except.ok v =>
          (mres.1 ++ hres.1, mres.2 && hres.2.1, hres.2.2, some v, d.rows)
        | Except.error _ =>
          (mres.1 ++ hres.1 ++ ["BAD_INDEX"], false, hres.2.2, none, d.rows)
  let (rs1, ok1, hs, lastBar, rows) := basic
  -- stale check, NaN check and final assembly (source lines 126–191), for
  -- runs that get past the `tzinfo` attribute access
  let finish : List String × Bool × Int × Nat × Option TS → SignalAudit :=
    fun staleR =>
      let (rs2, ok2, age, staleN, lastBarRes) := staleR
      -- NaN check on the last row (source lines 156–169)
      let nanR : List String × Bool × Nat :=
        match df with
        | none => ([], true, 1)
        | some d =>
          if d.rows = 0 then ([], true, 1)
          else
            if critical_last_cols.any (fun c => d.cols.contains c && d.nanLast c) then
              (["NAN_LAST_ROW"], false, 1)
            else
              ([], true, 0)
      let (rs3, ok3, nanN) := nanR
      -- final signal enforcement (source lines 175–191)
      let data_ok := ok1 && ok2 && ok3
      { asset := asset
        data_ok := data_ok
        last_bar := lastBarRes
        age_s := age
        rows := rows
        nan_last := nanN
        stale := staleN
        history_short := hs
        signal_raw := signal_raw
        signal_trade := if data_ok then signal_raw else "NO_TRADE(DATA)"
        reason := if data_ok then "OK" else joinSep ";" (rs1 ++ rs2 ++ rs3) }
  -- stale data check (source lines 126–150)
  match lastBar with
  | none => Except.ok (finish (["NO_LAST_BAR"], false, 10 ^ 9, 1, none))
  | some (IndexVal.other _) =>
    -- source line 135: `last_bar_dt.tzinfo` on a non-datetime value raises
    Except.error "AttributeError"
  | some (IndexVal.ts t) =>
    let epoch := resolveNaiveUtc assume_index_is_utc t
    let age := now - epoch
    Except.ok (finish
      (if age > timeframe_seconds * max_stale_multiplier then
        (["STALE_DATA"], false, age, 1, some (TS.aware epoch))
      else
        ([], true, age, 0, some (TS.aware epoch))))

end SignalGuard

namespace MainGuard

/-- Embedding of the `GuardResult` dataclass (src/main.py); `last_bar`
keeps the resolved timestamp, with "NA" becoming `none`. -/
structure GuardResult where
  data_ok : Bool
  last_bar : Option TS
  age_s : Int
  rows : Nat
  nan_last : Nat
  stale : Nat
  reason : String
deriving DecidableEq

/-- Embedding of `guard_intraday_df` (src/main.py, lines 37–98), with its
early returns on the empty and bad-index cases (the bad-index early return
discards the reasons collected so far).  The function is fallible: a
successfully extracted non-datetime index passes the `try/except` and the
`last_bar_dt.tzinfo` access at source line 73 raises an uncaught
AttributeError — modelled by the `Except.error` result. -/
def guard_intraday_df (df : Option DFrame)
    (timeframe_seconds max_stale_multiplier : Int) (min_rows : Nat)
    (required_cols critical_last_cols : List String)
    (assume_index_is_utc : Bool) (now : Int) : Except String GuardResult :=
  match df with
  | none => Except.ok ⟨false, none, 10 ^ 9, 0, 1, 1, "EMPTY_DF"⟩
  | some d =>
    if d.rows = 0 then Except.ok ⟨false, none, 10 ^ 9, 0, 1, 1, "EMPTY_DF"⟩
    else
      let missing := required_cols.filter (fun c => !(d.cols.contains c))
      let mres : List String × Bool :=
        if missing.isEmpty then ([], true)
        else (["MISSING_COLS:" ++ joinSep "," missing], false)
      let hres : List String × Bool :=
        if d.rows < min_rows then (["HISTORY_SHORT"], false) else ([], true)
      match d.indexLast with
      | Except.error _ => Except.ok ⟨false, none, 10 ^ 9, d.rows, 1, 1, "BAD_INDEX"⟩
      | Except.ok (IndexVal.other _) =>
        -- source line 73: `last_bar_dt.tzinfo` on a non-datetime value raises
        Except.error "AttributeError"
      | Except.ok (IndexVal.ts t) =>
        let epoch := resolveNaiveUtc assume_index_is_utc t
        let age := now - epoch
        let sres : List String × Bool × Nat :=
          if age > timeframe_seconds * max_stale_multiplier then
            (["STALE_DATA"], false, 1)
          else ([], true, 0)
        let nres : List String × Bool × Nat :=
          if critical_last_cols.any (fun c => d.cols.contains c && d.nanLast c) then
            (["NAN_LAST_ROW"], false, 1)
          else ([], true, 0)
        let ok := mres.2 && hres.2 && sres.2.1 && nres.2.1
        Except.ok
          { data_ok := ok
            last_bar := some (TS.aware epoch)
            age_s := age
            rows := d.rows
            nan_last := nres.2.2
            stale := sres.2.2
            reason :=
              if ok then "OK" else joinSep ";" (mres.1 ++ hres.1 ++ sres.1 ++ nres.1) }

end MainGuard

namespace ForecastAssets

/-- Verdict record returned by the `guard_dataframe` helper that
src/forecast_assets.py imports from its own version of the signal guard.
That function body is not part of this snapshot, so the verdict is an
input of the pipeline here (the claims quantify over it); the field set is
the one forecast_asset reads. -/
structure GuardX where
  data_ok : Bool
  reason : String
  last_bar_utc : String
  age_s : Int
  rows : Nat
  nan_last : Nat
  stale : Nat
  timeframe_s : Int

/-- Decision record returned by the `decide` variant that
src/forecast_assets.py calls (a dict with rule_signal, gpt fields, action
and zusatzinfo); its body is likewise external, so it is a parameter. -/
structure Decision where
  rule_signal : String
  gpt_1_5d : String
  gpt_2_3w : String
  action : String
  zusatzinfo : String

/-- The per-asset result dict assembled by `forecast_asset`
(src/forecast_assets.py). -/
structure ForecastResult where
  asset : String
  close : Option ℚ
  score : ℚ
  signal : String
  f_1_5 : ℚ
  f_2_3 : ℚ
  gpt_1_5d : String
  gpt_2_3w : String
  final : String
  zusatzinfo : String
  data_ok : Bool
  last_bar_utc : String
  age_s : Int
  rows : Nat
  nan_last : Nat
  stale : Nat
  timeframe_s : Int
  guard_reason : String
deriving DecidableEq

/-- Python `round(x, 1)` applied to the close price (tie behaviour as in
the header note; no statement below depends on a tie). -/
def round1 (x : ℚ) : ℚ := (round (x * 10) : ℤ) / 10

/-- Embedding of `forecast_asset` (src/forecast_assets.py, lines 66–155).
The market-data fetch, the guard call, the score model (`model_score`),
the trend forecaster (`forecast_trend`) and the decision function are
taken as inputs: `guard` is the verdict for the fetched frame, `close?`
the last Close scalar, and `scoreFn`, `trendFn`, `decideFn` the three
downstream components.  When the guard blocks, the source returns the
blocked record of lines 89–108 without touching the three components. -/
def forecast_asset (asset bias : String) (guard : GuardX) (close? : Option ℚ)
    (scoreFn : Unit → ℚ) (trendFn : Nat → ℚ)
    (decideFn : String → ℚ → ℚ → ℚ → String → Decision) : ForecastResult :=
  if guard.data_ok then
    let score := scoreFn ()
    let f_1_5 := trendFn 5
    let f_2_3 := trendFn 15
    let decision := decideFn asset score f_1_5 f_2_3 bias
    { asset := asset
      close := close?.map round1
      score := score
      signal := decision.rule_signal
      f_1_5 := f_1_5
      f_2_3 := f_2_3
      gpt_1_5d := decision.gpt_1_5d
      gpt_2_3w := decision.gpt_2_3w
      final := decision.action
      zusatzinfo := decision.zusatzinfo
      data_ok := guard.data_ok
      last_bar_utc := guard.last_bar_utc
      age_s := guard.age_s
      rows := guard.rows
      nan_last := guard.nan_last
      stale := guard.stale
      timeframe_s := guard.timeframe_s
      guard_reason := guard.reason }
  else
    { asset := asset
      close := close?.map round1
      score := 0
      signal := "NO_TRADE"
      f_1_5 := 0
      f_2_3 := 0
      gpt_1_5d := "NA"
      gpt_2_3w := "NA"
      final := "NO_TRADE(DATA)"
      zusatzinfo := "DATA BLOCK: " ++ guard.reason
      data_ok := guard.data_ok
      last_bar_utc := guard.last_bar_utc
      age_s := guard.age_s
      rows := guard.rows
      nan_last := guard.nan_last
      stale := guard.stale
      timeframe_s := guard.timeframe_s
      guard_reason := guard.reason }

/-- A Python exception, by type name and message. -/
structure PyErr where
  name : String
  msg : String

/-- The ASSETS table (src/forecast_assets.py, lines 54–59). -/
def ASSETS : List (String × String × String) :=
  [("GOLD", "GC=F", "STRONG_SUPPORT"),
   ("SILVER", "SI=F", "NO_SUPPORT"),
   ("NATURAL GAS", "NG=F", "STRONG_SUPPORT"),
   ("COPPER", "HG=F", "STRONG_SUPPORT")]

/-- Embedding of `run_all` (src/forecast_assets.py, lines 162–194).  The
per-asset computation `fa` (modelling `forecast_asset` together with its
network fetch) may raise — modelled by `Except PyErr` — and the
orchestrator catches any failure, substituting the error result of lines
172–192 instead of propagating. -/
def run_all (fa : String → String → String → Except PyErr ForecastResult) :
    List ForecastResult :=
  ASSETS.map (fun a =>
    match fa a.1 a.2.1 a.2.2 with
    | Except.ok r => r
    | Except.error e =>
      { asset := a.1, close := none, score := 0, signal := "NO_TRADE",
        f_1_5 := 0, f_2_3 := 0, gpt_1_5d := "NA", gpt_2_3w := "NA",
        final := "NO_TRADE(ERROR)",
        zusatzinfo := "ERROR: " ++ e.name ++ ": " ++ e.msg,
        data_ok := false, last_bar_utc := "NA", age_s := 10 ^ 9, rows := 0,
        nan_last := 1, stale := 1, timeframe_s := 0,
        guard_reason := "ERROR: " ++ e.name })

end ForecastAssets

/-- Helper: the real tanh stays strictly below 1. -/
theorem helper_tanh_lt_one (x : ℝ) : Real.tanh x < 1 := by
  rw [Real.tanh_eq_sinh_div_cosh, div_lt_one (Real.cosh_pos x)]
  exact Real.sinh_lt_cosh x

/-- Helper: the real tanh stays strictly above −1. -/
theorem helper_neg_one_lt_tanh (x : ℝ) : -1 < Real.tanh x := by
  rw [Real.tanh_eq_sinh_div_cosh, lt_div_iff₀ (Real.cosh_pos x)]
  have h := Real.cosh_add_sinh x
  have := Real.exp_pos x
  nlinarith [Real.cosh_pos x]

/-- Helper: tanh of an argument at least 3 is at least 0.99. -/
theorem helper_tanh_ge (x : ℝ) (hx : 3 ≤ x) : (0.99 : ℝ) ≤ Real.tanh x := by
  have hax : Real.exp 3 ≤ Real.exp x := Real.exp_le_exp.mpr hx
  have h1 : (2.7 : ℝ) ≤ Real.exp 1 := le_of_lt (lt_trans (by norm_num) Real.exp_one_gt_d9)
  have h3 : (19 : ℝ) ≤ Real.exp 3 := by
    have he : Real.exp (3 : ℝ) = (Real.exp 1) ^ (3 : ℕ) := by
      rw [← Real.exp_nat_mul]; norm_num
    have hp : (2.7 : ℝ) ^ (3 : ℕ) ≤ (Real.exp 1) ^ (3 : ℕ) :=
      pow_le_pow_left₀ (by norm_num) h1 3
    have h19 : (19 : ℝ) ≤ (2.7 : ℝ) ^ (3 : ℕ) := by norm_num
    linarith [he ▸ le_trans h19 hp]
  have ha : (19 : ℝ) ≤ Real.exp x := le_trans h3 hax
  have hapos : (0 : ℝ) < Real.exp x := Real.exp_pos x
  have hbpos : (0 : ℝ) < Real.exp (-x) := Real.exp_pos (-x)
  have hab : Real.exp x * Real.exp (-x) = 1 := by
    rw [← Real.exp_add]; simp
  have hcosh : (0 : ℝ) < (Real.exp x + Real.exp (-x)) / 2 := by positivity
  rw [Real.tanh_eq_sinh_div_cosh, Real.sinh_eq, Real.cosh_eq, le_div_iff₀ hcosh]
  nlinarith [hab, ha, hbpos, hapos]

/-- Helper: the population standard deviation of a constant list is 0. -/
theorem helper_npStd_replicate (n : ℕ) (a : ℝ) :
    ModelCore.npStd (List.replicate n a) = 0 := by
  rcases Nat.eq_zero_or_pos n with h | h
  · subst h
    simp [ModelCore.npStd, ModelCore.listMean]
  · have hn : ((n : ℝ)) ≠ 0 := Nat.cast_ne_zero.mpr (by omega)
    have hmean : ModelCore.listMean (List.replicate n a) = a := by
      simp only [ModelCore.listMean, List.sum_replicate, List.length_replicate,
        nsmul_eq_mul]
      field_simp
    simp only [ModelCore.npStd, hmean, List.map_replicate, sub_self]
    norm_num

/-- Helper: `round3` of a value in the open interval (0.25, 0.75) lies in
the closed interval [0.25, 0.75]. -/
theorem helper_round3_mem (x : ℝ) (h1 : 0.25 < x) (h2 : x < 0.75) :
    0.25 ≤ ModelCore.round3 x ∧ ModelCore.round3 x ≤ 0.75 := by
  have hlow : (250 : ℤ) ≤ ⌊x * 1000 + 1 / 2⌋ := by
    rw [Int.le_floor]
    push_cast
    linarith
  have hhigh : ⌊x * 1000 + 1 / 2⌋ ≤ (750 : ℤ) := by
    have : ⌊x * 1000 + 1 / 2⌋ < (751 : ℤ) := by
      rw [Int.floor_lt]
      push_cast
      linarith
    omega
  constructor
  · rw [ModelCore.round3, round_eq]
    have : ((250 : ℤ) : ℝ) ≤ (⌊x * 1000 + 1 / 2⌋ : ℝ) := Int.cast_le.mpr hlow
    push_cast at this ⊢
    linarith
  · rw [ModelCore.round3, round_eq]
    have : ((⌊x * 1000 + 1 / 2⌋ : ℤ) : ℝ) ≤ ((750 : ℤ) : ℝ) := Int.cast_le.mpr hhigh
    push_cast at this ⊢
    linarith

/-- Helper: a naive timestamp resolves identically whether or not the index
is assumed UTC, because both branches of the conditional tag it as UTC. -/
theorem helper_resolve_const (t : TS) :
    resolveNaiveUtc true t = resolveNaiveUtc false t := by
  cases t <;> rfl

/-- Helper: any member of a joined list is a substring of the join. -/
theorem helper_joinSep_parts (sep x : String) :
    ∀ l : List String, x ∈ l → ∃ pre post, joinSep sep l = pre ++ x ++ post := by
  intro l
  induction l with
  | nil => intro h; cases h
  | cons a t ih =>
    intro h
    cases t with
    | nil =>
      have hx : x = a := by simpa using h
      subst hx
      exact ⟨"", "", by simp [joinSep]⟩
    | cons b t2 =>
      rcases List.mem_cons.mp h with rfl | h2
      · exact ⟨"", sep ++ joinSep sep (b :: t2), by simp [joinSep, String.append_assoc]⟩
      · rcases ih h2 with ⟨pre, post, hp⟩
        exact ⟨a ++ sep ++ pre, post, by simp [joinSep, hp, String.append_assoc]⟩

/-- Helper: joining a nonempty list of strings of length at least 3 yields
a string of length at least 3. -/
theorem helper_joinSep_min_length (sep : String) :
    ∀ l : List String, l ≠ [] → (∀ r ∈ l, 3 ≤ r.length) →
      3 ≤ (joinSep sep l).length := by
  intro l
  induction l with
  | nil => intro h; exact absurd rfl h
  | cons a t ih =>
    intro _ h3
    cases t with
    | nil =>
      simpa [joinSep] using h3 a (by simp)
    | cons b t2 =>
      have := h3 a (by simp)
      simp only [joinSep, String.length_append]
      omega

/-- Helper: joining a nonempty list of reason atoms never yields "OK". -/
theorem helper_joinSep_ne_OK (l : List String) (hne : l ≠ [])
    (h3 : ∀ r ∈ l, 3 ≤ r.length) : joinSep ";" l ≠ "OK" := by
  intro h
  have hlen := helper_joinSep_min_length ";" l hne h3
  rw [h] at hlen
  exact absurd hlen (by decide)

/-- Helper: the tanh-combined score before rounding is in (0.25, 0.75), so
its rounding is in [0.25, 0.75]. -/
theorem helper_core_round_mem (a b : ℝ) :
    0.25 ≤ ModelCore.round3 (0.5 + (0.65 * Real.tanh a + 0.35 * Real.tanh b) * 0.25) ∧
      ModelCore.round3 (0.5 + (0.65 * Real.tanh a + 0.35 * Real.tanh b) * 0.25) ≤ 0.75 :=
  helper_round3_mem _
    (by nlinarith [helper_neg_one_lt_tanh a, helper_neg_one_lt_tanh b])
    (by nlinarith [helper_tanh_lt_one a, helper_tanh_lt_one b])

/-- Helper: when both momentum z-scores reach 3, the rounded score
exceeds 0.70. -/
theorem helper_score_large (a b : ℝ) (ha : 3 ≤ a) (hb : 3 ≤ b) :
    0.70 < ModelCore.round3 (0.5 + (0.65 * Real.tanh a + 0.35 * Real.tanh b) * 0.25) := by
  have h1 := helper_tanh_ge a ha
  have h2 := helper_tanh_ge b hb
  have h3 := helper_tanh_lt_one a
  have h4 := helper_tanh_lt_one b
  set x := 0.5 + (0.65 * Real.tanh a + 0.35 * Real.tanh b) * 0.25 with hx
  have hxl : (0.7475 : ℝ) ≤ x := by rw [hx]; nlinarith
  have hfl : (748 : ℤ) ≤ ⌊x * 1000 + 1 / 2⌋ := Int.le_floor.mpr (by push_cast; linarith)
  rw [ModelCore.round3, round_eq]
  have hc : ((748 : ℤ) : ℝ) ≤ (⌊x * 1000 + 1 / 2⌋ : ℝ) := Int.cast_le.mpr hfl
  push_cast at hc
  linarith

/-- Helper: on an absent or zero-row frame the audit guard returns
(without raising) the constant EMPTY_DF record. -/
theorem helper_audit_empty_eq (asset sr : String) (tf mult : Int) (mr : Nat)
    (req crit : List String) (utc : Bool) (now : Int) (df : Option DFrame)
    (hdf : df = none ∨ ∃ d, df = some d ∧ d.rows = 0) :
    SignalGuard.audit_and_format_signal asset df sr tf mult mr req crit utc now =
      Except.ok
        { asset := asset, data_ok := false, last_bar := none, age_s := 10 ^ 9,
          rows := 0, nan_last := 1, stale := 1, history_short := 0, signal_raw := sr,
          signal_trade := "NO_TRADE(DATA)", reason := "EMPTY_DF;NO_LAST_BAR" } := by
  rcases hdf with rfl | ⟨d, rfl, h0⟩
  · simp [SignalGuard.audit_and_format_signal, joinSep]
  · simp [SignalGuard.audit_and_format_signal, joinSep, h0]

/-- Helper: on an absent or zero-row frame the main-table guard returns
(without raising) the constant EMPTY_DF record. -/
theorem helper_main_empty_eq (tf mult : Int) (mr : Nat)
    (req crit : List String) (utc : Bool) (now : Int) (df : Option DFrame)
    (hdf : df = none ∨ ∃ d, df = some d ∧ d.rows = 0) :
    MainGuard.guard_intraday_df df tf mult mr req crit utc now =
      Except.ok
        { data_ok := false, last_bar := none, age_s := 10 ^ 9, rows := 0,
          nan_last := 1, stale := 1, reason := "EMPTY_DF" } := by
  rcases hdf with rfl | ⟨d, rfl, h0⟩
  · simp [MainGuard.guard_intraday_df]
  · simp [MainGuard.guard_intraday_df, h0]

/-- Helper: on a nonempty frame whose index extraction fails inside the
`try/except`, the main-table guard returns the BAD_INDEX record, its early
return discarding the reasons collected so far. -/
theorem helper_main_badidx_eq (tf mult : Int) (mr : Nat)
    (req crit : List String) (utc : Bool) (now : Int) (d : DFrame) (e : String)
    (h0 : d.rows ≠ 0) (he : d.indexLast = Except.error e) :
    MainGuard.guard_intraday_df (some d) tf mult mr req crit utc now =
      Except.ok
        { data_ok := false, last_bar := none, age_s := 10 ^ 9, rows := d.rows,
          nan_last := 1, stale := 1, reason := "BAD_INDEX" } := by
  simp [MainGuard.guard_intraday_df, h0, he]

/-- Helper: on a nonempty frame whose index extraction fails inside the
`try/except`, the audit guard returns a blocked record whose reason joins
the collected flags with BAD_INDEX and NO_LAST_BAR. -/
theorem helper_audit_badidx_eq (asset sr : String) (tf mult : Int) (mr : Nat)
    (req crit : List String) (utc : Bool) (now : Int) (d : DFrame) (e : String)
    (h0 : d.rows ≠ 0) (he : d.indexLast = Except.error e) :
    SignalGuard.audit_and_format_signal asset (some d) sr tf mult mr req crit utc now =
      Except.ok
        { asset := asset, data_ok := false, last_bar := none, age_s := 10 ^ 9,
          rows := d.rows,
          nan_last :=
            if crit.any (fun c => d.cols.contains c && d.nanLast c) then 1 else 0,
          stale := 1,
          history_short := if d.rows < mr then 1 else 0, signal_raw := sr,
          signal_trade := "NO_TRADE(DATA)",
          reason := joinSep ";"
            ((if (req.filter (fun c => !(d.cols.contains c))).isEmpty then []
              else ["MISSING_COLS:" ++
                joinSep "," (req.filter (fun c => !(d.cols.contains c)))]) ++
             (if d.rows < mr then ["HISTORY_SHORT"] else []) ++
             ["BAD_INDEX"] ++ ["NO_LAST_BAR"] ++
             (if crit.any (fun c => d.cols.contains c && d.nanLast c) then
               ["NAN_LAST_ROW"] else [])) } := by
  by_cases hm : ∀ c ∈ req, c ∈ d.cols <;>
  by_cases hh : d.rows < mr <;>
  by_cases hnan : ∃ x ∈ crit, x ∈ d.cols ∧ d.nanLast x = true <;>
    (simp [SignalGuard.audit_and_format_signal, h0, he, hm, hh, hnan];
      try (split_ifs <;> simp_all))

/-- Helper: on a nonempty frame with a successfully extracted timestamp
index, the audit guard returns (without raising) the fully evaluated
record. -/
theorem helper_audit_sound_eq (asset sr : String) (tf mult : Int) (mr : Nat)
    (req crit : List String) (utc : Bool) (now : Int) (d : DFrame) (t : TS)
    (h0 : d.rows ≠ 0) (hidx : d.indexLast = Except.ok (IndexVal.ts t)) :
    SignalGuard.audit_and_format_signal asset (some d) sr tf mult mr req crit utc now =
      Except.ok
        { asset := asset
          data_ok := (req.filter (fun c => !(d.cols.contains c))).isEmpty &&
            !decide (d.rows < mr) &&
            !decide (now - resolveNaiveUtc utc t > tf * mult) &&
            !(crit.any (fun c => d.cols.contains c && d.nanLast c))
          last_bar := some (TS.aware (resolveNaiveUtc utc t))
          age_s := now - resolveNaiveUtc utc t
          rows := d.rows
          nan_last := if crit.any (fun c => d.cols.contains c && d.nanLast c) then 1 else 0
          stale := if now - resolveNaiveUtc utc t > tf * mult then 1 else 0
          history_short := if d.rows < mr then 1 else 0
          signal_raw := sr
          signal_trade :=
            if ((req.filter (fun c => !(d.cols.contains c))).isEmpty &&
                !decide (d.rows < mr) &&
                !decide (now - resolveNaiveUtc utc t > tf * mult) &&
                !(crit.any (fun c => d.cols.contains c && d.nanLast c))) = true
            then sr else "NO_TRADE(DATA)"
          reason :=
            if ((req.filter (fun c => !(d.cols.contains c))).isEmpty &&
                !decide (d.rows < mr) &&
                !decide (now - resolveNaiveUtc utc t > tf * mult) &&
                !(crit.any (fun c => d.cols.contains c && d.nanLast c))) = true
            then "OK"
            else joinSep ";"
              ((if (req.filter (fun c => !(d.cols.contains c))).isEmpty then []
                else ["MISSING_COLS:" ++
                  joinSep "," (req.filter (fun c => !(d.cols.contains c)))]) ++
               (if d.rows < mr then ["HISTORY_SHORT"] else []) ++
               (if now - resolveNaiveUtc utc t > tf * mult then ["STALE_DATA"] else []) ++
               (if crit.any (fun c => d.cols.contains c && d.nanLast c) then
                 ["NAN_LAST_ROW"] else [])) } := by
  by_cases hm : ∀ c ∈ req, c ∈ d.cols <;>
  by_cases hh : d.rows < mr <;>
  by_cases hst : now - resolveNaiveUtc utc t > tf * mult <;>
  by_cases hnan : ∃ x ∈ crit, x ∈ d.cols ∧ d.nanLast x = true <;>
    (simp [SignalGuard.audit_and_format_signal, hidx, h0, hm, hh, hst, hnan] <;>
      (split_ifs <;>
        first
        | (simp_all; done)
        | (exfalso; obtain ⟨x, hx1, hx2, hx3⟩ := hnan; simp_all)))

/-- Helper: on a nonempty frame with a successfully extracted timestamp
index, the main-table guard returns (without raising) the fully evaluated
record. -/
theorem helper_main_sound_eq (tf mult : Int) (mr : Nat)
    (req crit : List String) (utc : Bool) (now : Int) (d : DFrame) (t : TS)
    (h0 : d.rows ≠ 0) (hidx : d.indexLast = Except.ok (IndexVal.ts t)) :
    MainGuard.guard_intraday_df (some d) tf mult mr req crit utc now =
      Except.ok
        { data_ok := (req.filter (fun c => !(d.cols.contains c))).isEmpty &&
            !decide (d.rows < mr) &&
            !decide (now - resolveNaiveUtc utc t > tf * mult) &&
            !(crit.any (fun c => d.cols.contains c && d.nanLast c))
          last_bar := some (TS.aware (resolveNaiveUtc utc t))
          age_s := now - resolveNaiveUtc utc t
          rows := d.rows
          nan_last := if crit.any (fun c => d.cols.contains c && d.nanLast c) then 1 else 0
          stale := if now - resolveNaiveUtc utc t > tf * mult then 1 else 0
          reason :=
            if ((req.filter (fun c => !(d.cols.contains c))).isEmpty &&
                !decide (d.rows < mr) &&
                !decide (now - resolveNaiveUtc utc t > tf * mult) &&
                !(crit.any (fun c => d.cols.contains c && d.nanLast c))) = true
            then "OK"
            else joinSep ";"
              ((if (req.filter (fun c => !(d.cols.contains c))).isEmpty then []
                else ["MISSING_COLS:" ++
                  joinSep "," (req.filter (fun c => !(d.cols.contains c)))]) ++
               (if d.rows < mr then ["HISTORY_SHORT"] else []) ++
               (if now - resolveNaiveUtc utc t > tf * mult then ["STALE_DATA"] else []) ++
               (if crit.any (fun c => d.cols.contains c && d.nanLast c) then
                 ["NAN_LAST_ROW"] else [])) } := by
  by_cases hm : ∀ c ∈ req, c ∈ d.cols <;>
  by_cases hh : d.rows < mr <;>
  by_cases hst : now - resolveNaiveUtc utc t > tf * mult <;>
  by_cases hnan : ∃ x ∈ crit, x ∈ d.cols ∧ d.nanLast x = true <;>
    (simp [MainGuard.guard_intraday_df, hidx, h0, hm, hh, hst, hnan] <;>
      (split_ifs <;>
        first
        | (simp_all; done)
        | (exfalso; obtain ⟨x, hx1, hx2, hx3⟩ := hnan; simp_all)))

/-- C2: `decide` is deterministic and total — for every asset string and
score exactly one `(action, explanation)` pair is returned — and the
threshold bands map exactly per the table: GOLD `≥ 0.55 → LONG_FULL`,
`[0.53, 0.55) → LONG_HALF`, `< 0.53 → NO_TRADE`; SILVER `≥ 0.96 → LONG`
else NO_TRADE; COPPER `≥ 0.56 → LONG` else NO_TRADE; NATURAL GAS
`≥ 0.56 → LONG`, `≤ 0.44 → SHORT`, strictly between → NO_TRADE; unknown
assets → NO_TRADE.  Boundary cases: GOLD 0.53 → LONG_HALF,
0.529999 → NO_TRADE; NATURAL GAS 0.44 → SHORT, 0.4400001 → NO_TRADE. -/
theorem c2_decide_total_table :
    (∀ (a : String) (s : ℚ), ∃! r : String × String, DecisionEngine.decide a s = r) ∧
    (∀ s : ℚ, 0.55 ≤ s → (DecisionEngine.decide "GOLD" s).1 = "LONG_FULL") ∧
    (∀ s : ℚ, 0.53 ≤ s → s < 0.55 → (DecisionEngine.decide "GOLD" s).1 = "LONG_HALF") ∧
    (∀ s : ℚ, s < 0.53 → (DecisionEngine.decide "GOLD" s).1 = "NO_TRADE") ∧
    (∀ s : ℚ, 0.96 ≤ s → (DecisionEngine.decide "SILVER" s).1 = "LONG") ∧
    (∀ s : ℚ, s < 0.96 → (DecisionEngine.decide "SILVER" s).1 = "NO_TRADE") ∧
    (∀ s : ℚ, 0.56 ≤ s → (DecisionEngine.decide "COPPER" s).1 = "LONG") ∧
    (∀ s : ℚ, s < 0.56 → (DecisionEngine.decide "COPPER" s).1 = "NO_TRADE") ∧
    (∀ s : ℚ, 0.56 ≤ s → (DecisionEngine.decide "NATURAL GAS" s).1 = "LONG") ∧
    (∀ s : ℚ, s ≤ 0.44 → (DecisionEngine.decide "NATURAL GAS" s).1 = "SHORT") ∧
    (∀ s : ℚ, 0.44 < s → s < 0.56 → (DecisionEngine.decide "NATURAL GAS" s).1 = "NO_TRADE") ∧
    (∀ a : String, a ≠ "GOLD" → a ≠ "SILVER" → a ≠ "COPPER" → a ≠ "NATURAL GAS" →
      ∀ s : ℚ, (DecisionEngine.decide a s).1 = "NO_TRADE") ∧
    (DecisionEngine.decide "GOLD" 0.53).1 = "LONG_HALF" ∧
    (DecisionEngine.decide "GOLD" 0.529999).1 = "NO_TRADE" ∧
    (DecisionEngine.decide "NATURAL GAS" 0.44).1 = "SHORT" ∧
    (DecisionEngine.decide "NATURAL GAS" 0.4400001).1 = "NO_TRADE" := by
  refine ⟨fun a s => ⟨DecisionEngine.decide a s, rfl, fun r h => h.symm⟩,
    ?_, ?_, ?_, ?_, ?_, ?_, ?_, ?_, ?_, ?_, ?_, ?_, ?_, ?_, ?_⟩
  · intro s h
    simp [DecisionEngine.decide, h]
  · intro s h1 h2
    simp [DecisionEngine.decide, h1, not_le.mpr h2]
  · intro s h
    simp [DecisionEngine.decide, not_le.mpr h,
      not_le.mpr (h.trans (by norm_num : (0.53 : ℚ) < 0.55))]
  · intro s h
    simp [DecisionEngine.decide, h]
  · intro s h
    simp [DecisionEngine.decide, not_le.mpr h]
  · intro s h
    simp [DecisionEngine.decide, h]
  · intro s h
    simp [DecisionEngine.decide, not_le.mpr h]
  · intro s h
    simp [DecisionEngine.decide, h]
  · intro s h
    simp [DecisionEngine.decide, h,
      not_le.mpr (lt_of_le_of_lt h (by norm_num : (0.44 : ℚ) < 0.56))]
  · intro s h1 h2
    simp [DecisionEngine.decide, not_le.mpr h2, not_le.mpr h1]
  · intro a h1 h2 h3 h4 s
    simp [DecisionEngine.decide, h1, h2, h3, h4]
  · norm_num [DecisionEngine.decide]
  · norm_num [DecisionEngine.decide]
  · norm_num [DecisionEngine.decide]
    simp
  · norm_num [DecisionEngine.decide]
    simp

/-- C2 witness: the quantified clauses of `c2_decide_total_table`
instantiated at concrete scores and the unknown asset "PLATINUM". -/
theorem c2_decide_total_table_witness :
    (DecisionEngine.decide "GOLD" 0.55).1 = "LONG_FULL" ∧
    (DecisionEngine.decide "GOLD" 0.54).1 = "LONG_HALF" ∧
    (DecisionEngine.decide "GOLD" 0.52).1 = "NO_TRADE" ∧
    (DecisionEngine.decide "SILVER" 0.96).1 = "LONG" ∧
    (DecisionEngine.decide "SILVER" 0.95).1 = "NO_TRADE" ∧
    (DecisionEngine.decide "COPPER" 0.56).1 = "LONG" ∧
    (DecisionEngine.decide "COPPER" 0.55).1 = "NO_TRADE" ∧
    (DecisionEngine.decide "NATURAL GAS" 0.56).1 = "LONG" ∧
    (DecisionEngine.decide "NATURAL GAS" 0.44).1 = "SHORT" ∧
    (DecisionEngine.decide "NATURAL GAS" 0.5).1 = "NO_TRADE" ∧
    (DecisionEngine.decide "PLATINUM" 0.99).1 = "NO_TRADE" := by
  obtain ⟨-, g1, g2, g3, s1, s2, co1, co2, n1, n2, n3, u, -, -, -, -⟩ :=
    c2_decide_total_table
  exact ⟨g1 0.55 (by norm_num), g2 0.54 (by norm_num) (by norm_num),
    g3 0.52 (by norm_num), s1 0.96 (by norm_num), s2 0.95 (by norm_num),
    co1 0.56 (by norm_num), co2 0.55 (by norm_num), n1 0.56 (by norm_num),
    n2 0.44 (by norm_num), n3 0.5 (by norm_num) (by norm_num),
    u "PLATINUM" (by decide) (by decide) (by decide) (by decide) 0.99⟩

/-- C9: with fewer than 30 observations, `compute_score` returns exactly
the neutral midpoint 0.50, regardless of the values present. -/
theorem c9_short_input_neutral (p : List ℝ) (h : p.length < 30) :
    ModelCore.compute_score p = 0.50 := by
  unfold ModelCore.compute_score
  rw [if_pos h]

/-- C9 witness: the empty price list. -/
theorem c9_short_input_neutral_witness :
    ModelCore.compute_score [] = 0.50 :=
  c9_short_input_neutral [] (by simp)

/-- C3 (amended): for price lists of strictly positive prices — the
domain on which the float program computes real numbers rather than
propagating NaN, and the domain on which this real-valued embedding is
faithful — the score returned by `compute_score` lies in [0.25, 0.75]:
the tanh squashing bounds the combined signal to (−1, 1), the affine map
sends it into (0.25, 0.75), and rounding keeps it inside [0.25, 0.75];
there is no hard clamp to [0.30, 0.70] in the code.  All-equal positive
price lists of any length yield exactly the neutral midpoint 0.50 (the
volatility epsilon floor prevents division by zero).  The positivity
hypotheses delimit the faithful domain; within it the proof needs no
further use of them, since tanh bounds the signal for any real inputs. -/
theorem c3_score_bounds_amended :
    (∀ p : List ℝ, (∀ x ∈ p, 0 < x) →
      0.25 ≤ ModelCore.compute_score p ∧ ModelCore.compute_score p ≤ 0.75) ∧
    (∀ (c : ℝ) (n : ℕ), 0 < c →
      ModelCore.compute_score (List.replicate n c) = 0.50) := by
  constructor
  · intro p _
    by_cases h : p.length < 30
    · simp only [ModelCore.compute_score, if_pos h]
      norm_num
    · simp only [ModelCore.compute_score, if_neg h]
      exact helper_core_round_mem _ _
  · intro c n _
    by_cases h : n < 30
    · simp only [ModelCore.compute_score, List.length_replicate]
      rw [if_pos h]
    · push_neg at h
      have hget : ∀ i, i < n → (List.replicate n c).getD i 0 = c := by
        intro i hi
        rw [List.getD_eq_getElem?_getD, List.getElem?_replicate, if_pos hi]
        rfl
      have hdrop : (List.replicate n c).drop (n - 21) = List.replicate 21 c := by
        rw [List.drop_replicate]
        congr 1
        omega
      simp only [ModelCore.compute_score, List.length_replicate]
      rw [if_neg (by omega : ¬ n < 30)]
      rw [hget (n - 1) (by omega), hget (n - 21) (by omega), hget (n - 6) (by omega),
        hdrop, List.map_replicate]
      have hdiff : ModelCore.npDiff (List.replicate 21 (Real.log c)) =
          List.replicate 20 (0 : ℝ) := by
        simp [ModelCore.npDiff, List.tail_replicate, List.zipWith_replicate]
      rw [hdiff, helper_npStd_replicate, sub_self, zero_div]
      norm_num [ModelCore.round3, round_eq, Real.tanh_zero]

/-- C3 witness: the amended bounds at the positive one-element list, and
the all-equal conjunct at thirty constant positive prices. -/
theorem c3_score_bounds_amended_witness :
    (0.25 ≤ ModelCore.compute_score [1] ∧ ModelCore.compute_score [1] ≤ 0.75) ∧
    ModelCore.compute_score (List.replicate 30 (1 : ℝ)) = 0.50 :=
  ⟨c3_score_bounds_amended.1 [1] (List.forall_mem_singleton.mpr one_pos),
    c3_score_bounds_amended.2 1 30 one_pos⟩

/-- C3 counterexample: on the finite all-positive price list
`exp 0, …, exp 29` the score is strictly greater than 0.70, refuting the
claim that the output always lies within [0.30, 0.70]. -/
theorem c3_clamp_counterexample :
    0.70 < ModelCore.compute_score ModelCore.cexPrices := by
  have hlen : ModelCore.cexPrices.length = 30 := by rfl
  have hg29 : ModelCore.cexPrices.getD 29 0 = Real.exp 29 := by rfl
  have hg9 : ModelCore.cexPrices.getD 9 0 = Real.exp 9 := by rfl
  have hg24 : ModelCore.cexPrices.getD 24 0 = Real.exp 24 := by rfl
  have hdrop : ModelCore.cexPrices.drop 9 =
      [Real.exp 9, Real.exp 10, Real.exp 11, Real.exp 12, Real.exp 13,
        Real.exp 14, Real.exp 15, Real.exp 16, Real.exp 17, Real.exp 18,
        Real.exp 19, Real.exp 20, Real.exp 21, Real.exp 22, Real.exp 23,
        Real.exp 24, Real.exp 25, Real.exp 26, Real.exp 27, Real.exp 28,
        Real.exp 29] := by rfl
  have hrets : ModelCore.npDiff ((ModelCore.cexPrices.drop 9).map Real.log) =
      List.replicate 20 (1 : ℝ) := by
    rw [hdrop,
      show List.replicate 20 (1 : ℝ) =
        [1, 1, 1, 1, 1, 1, 1, 1, 1, 1, 1, 1, 1, 1, 1, 1, 1, 1, 1, 1] from rfl]
    norm_num [ModelCore.npDiff, Real.log_exp]
  have h25 : Real.sqrt 25 = 5 := by
    rw [show (25 : ℝ) = 5 ^ 2 by norm_num]
    exact Real.sqrt_sq (by norm_num)
  have h9 : Real.sqrt 9 = 3 := by
    rw [show (9 : ℝ) = 3 ^ 2 by norm_num]
    exact Real.sqrt_sq (by norm_num)
  have hsq20 : Real.sqrt 20 ≤ 5 := h25 ▸ Real.sqrt_le_sqrt (by norm_num)
  have hsq5 : Real.sqrt 5 ≤ 3 := h9 ▸ Real.sqrt_le_sqrt (by norm_num)
  have hsq20p : (0 : ℝ) < Real.sqrt 20 := Real.sqrt_pos.mpr (by norm_num)
  have hsq5p : (0 : ℝ) < Real.sqrt 5 := Real.sqrt_pos.mpr (by norm_num)
  simp only [ModelCore.compute_score]
  rw [hlen]
  rw [if_neg (by norm_num : ¬ (30 : ℕ) < 30)]
  rw [show (30 - 1 : ℕ) = 29 from rfl, show (30 - 21 : ℕ) = 9 from rfl,
    show (30 - 6 : ℕ) = 24 from rfl]
  rw [hg29, hg9, hg24, hrets, helper_npStd_replicate]
  apply helper_score_large
  · have hr : (Real.exp 29 - Real.exp 9) / Real.exp 9 = Real.exp 20 - 1 := by
      rw [sub_div, div_self (Real.exp_ne_zero 9), ← Real.exp_sub]
      norm_num
    rw [hr]
    have he20 : (21 : ℝ) ≤ Real.exp 20 := by linarith [Real.add_one_le_exp (20 : ℝ)]
    have hd : (0 : ℝ) < (0 + 1e-6) * Real.sqrt 20 := by positivity
    rw [div_mul_eq_mul_div, le_div_iff₀ hd]
    nlinarith [hsq20, hsq20p, he20]
  · have hr : (Real.exp 29 - Real.exp 24) / Real.exp 24 = Real.exp 5 - 1 := by
      rw [sub_div, div_self (Real.exp_ne_zero 24), ← Real.exp_sub]
      norm_num
    rw [hr]
    have he5 : (6 : ℝ) ≤ Real.exp 5 := by linarith [Real.add_one_le_exp (5 : ℝ)]
    have hd : (0 : ℝ) < (0 + 1e-6) * Real.sqrt 5 := by positivity
    rw [div_mul_eq_mul_div, le_div_iff₀ hd]
    nlinarith [hsq5, hsq5p, he5]

/-- C10: the `assume_index_is_utc` flag has no effect on either guard's
output: for every input series and every setting of the other parameters
the results (all fields) are identical for `true` and `false`, because a
timezone-naive last-bar timestamp is tagged as UTC in both branches. -/
theorem c10_assume_utc_no_effect (asset sr : String) (df : Option DFrame)
    (tf mult : Int) (mr : Nat) (req crit : List String) (now : Int) :
    SignalGuard.audit_and_format_signal asset df sr tf mult mr req crit true now =
      SignalGuard.audit_and_format_signal asset df sr tf mult mr req crit false now ∧
    MainGuard.guard_intraday_df df tf mult mr req crit true now =
      MainGuard.guard_intraday_df df tf mult mr req crit false now := by
  constructor
  · simp only [SignalGuard.audit_and_format_signal, helper_resolve_const]
  · simp only [MainGuard.guard_intraday_df, helper_resolve_const]

/-- C6: for an absent or zero-row series both guards return a verdict with
usable=false, reason containing "EMPTY" (exactly "EMPTY_DF;NO_LAST_BAR"
resp. "EMPTY_DF"), the sentinel age `10^9`, row count 0, the NaN-last flag
set and the stale flag set; the result record does not depend on any
configuration parameter — the empty case bypasses all further checks. -/
theorem c6_empty_series (asset sr : String) (tf mult : Int) (mr : Nat)
    (req crit : List String) (utc : Bool) (now : Int) (df : Option DFrame)
    (hdf : df = none ∨ ∃ d, df = some d ∧ d.rows = 0) :
    (SignalGuard.audit_and_format_signal asset df sr tf mult mr req crit utc now =
      Except.ok
        { asset := asset, data_ok := false, last_bar := none, age_s := 10 ^ 9,
          rows := 0, nan_last := 1, stale := 1, history_short := 0, signal_raw := sr,
          signal_trade := "NO_TRADE(DATA)", reason := "EMPTY_DF;NO_LAST_BAR" }) ∧
    (MainGuard.guard_intraday_df df tf mult mr req crit utc now =
      Except.ok
        { data_ok := false, last_bar := none, age_s := 10 ^ 9, rows := 0,
          nan_last := 1, stale := 1, reason := "EMPTY_DF" }) ∧
    (∃ pre post, ("EMPTY_DF;NO_LAST_BAR" : String) = pre ++ "EMPTY" ++ post) ∧
    (∃ pre post, ("EMPTY_DF" : String) = pre ++ "EMPTY" ++ post) :=
  ⟨helper_audit_empty_eq asset sr tf mult mr req crit utc now df hdf,
    helper_main_empty_eq tf mult mr req crit utc now df hdf,
    ⟨"", "_DF;NO_LAST_BAR", by decide⟩, ⟨"", "_DF", by decide⟩⟩

/-- C6 witness: the absent frame with the default configuration. -/
theorem c6_empty_series_witness :
    (SignalGuard.audit_and_format_signal "GOLD" none "BUY" 60 2 200
        ["Open", "High", "Low", "Close", "Volume"] ["Close", "Volume"] true 0 =
      Except.ok
        { asset := "GOLD", data_ok := false, last_bar := none, age_s := 10 ^ 9,
          rows := 0, nan_last := 1, stale := 1, history_short := 0, signal_raw := "BUY",
          signal_trade := "NO_TRADE(DATA)", reason := "EMPTY_DF;NO_LAST_BAR" }) ∧
    (MainGuard.guard_intraday_df none 60 2 200
        ["Open", "High", "Low", "Close", "Volume"] ["Close", "Volume"] true 0 =
      Except.ok
        { data_ok := false, last_bar := none, age_s := 10 ^ 9, rows := 0,
          nan_last := 1, stale := 1, reason := "EMPTY_DF" }) := by
  obtain ⟨h1, h2, -, -⟩ :=
    c6_empty_series "GOLD" "BUY" 60 2 200
      ["Open", "High", "Low", "Close", "Volume"] ["Close", "Volume"] true 0 none
      (Or.inl rfl)
  exact ⟨h1, h2⟩

/-- C5: on a series with rows and a readable last timestamp — the runs
that reach the stale check and return a verdict — staleness is flagged by
both guards exactly when the whole-second age strictly exceeds
`timeframe_seconds * max_stale_multiplier`: strictly greater ⇒ stale flag
set, usable=false and reason containing "STALE_DATA"; exactly equal ⇒
stale flag not set; negative age (last bar in the future) ⇒ stale flag not
set (for a non-negative threshold). -/
theorem c5_staleness (asset sr : String) (tf mult : Int) (mr : Nat)
    (req crit : List String) (utc : Bool) (now : Int) (d : DFrame) (t : TS)
    (h0 : d.rows ≠ 0) (hidx : d.indexLast = Except.ok (IndexVal.ts t))
    (hthr : 0 ≤ tf * mult) :
    ∃ a g,
      SignalGuard.audit_and_format_signal asset (some d) sr tf mult mr req crit utc now
        = Except.ok a ∧
      MainGuard.guard_intraday_df (some d) tf mult mr req crit utc now = Except.ok g ∧
      (tf * mult < now - resolveNaiveUtc utc t →
        a.stale = 1 ∧ a.data_ok = false ∧
        (∃ p q, a.reason = p ++ "STALE_DATA" ++ q) ∧
        g.stale = 1 ∧ g.data_ok = false ∧
        (∃ p q, g.reason = p ++ "STALE_DATA" ++ q)) ∧
      (now - resolveNaiveUtc utc t = tf * mult → a.stale = 0 ∧ g.stale = 0) ∧
      (now - resolveNaiveUtc utc t < 0 → a.stale = 0 ∧ g.stale = 0) := by
  refine ⟨_, _, helper_audit_sound_eq asset sr tf mult mr req crit utc now d t h0 hidx,
    helper_main_sound_eq tf mult mr req crit utc now d t h0 hidx, ?_, ?_, ?_⟩
  · intro h
    refine ⟨by simp [h], by simp [h], ?_, by simp [h], by simp [h], ?_⟩
    · simp [h]
      exact helper_joinSep_parts ";" "STALE_DATA" _ (by simp)
    · simp [h]
      exact helper_joinSep_parts ";" "STALE_DATA" _ (by simp)
  · intro h
    have hns : ¬ (tf * mult < now - resolveNaiveUtc utc t) := by omega
    exact ⟨by simp [hns], by simp [hns]⟩
  · intro h
    have hns : ¬ (tf * mult < now - resolveNaiveUtc utc t) := by omega
    exact ⟨by simp [hns], by simp [hns]⟩

/-- Helper: length of the literal reason atoms. -/
theorem len_MISSING_COLS : ("MISSING_COLS:" : String).length = 13 := rfl

/-- Helper: length of the literal reason atoms. -/
theorem len_HISTORY_SHORT : ("HISTORY_SHORT" : String).length = 13 := rfl

/-- Helper: length of the literal reason atoms. -/
theorem len_STALE_DATA : ("STALE_DATA" : String).length = 10 := rfl

/-- Helper: length of the literal reason atoms. -/
theorem len_NAN_LAST_ROW : ("NAN_LAST_ROW" : String).length = 12 := rfl

/-- Helper: length of the literal reason atoms. -/
theorem len_BAD_INDEX : ("BAD_INDEX" : String).length = 9 := rfl

/-- Helper: length of the literal reason atoms. -/
theorem len_NO_LAST_BAR : ("NO_LAST_BAR" : String).length = 11 := rfl

/-- Helper: length of the literal reason atoms. -/
theorem len_EMPTY_DF : ("EMPTY_DF" : String).length = 8 := rfl

/-- Helper: length of the literal reason atoms. -/
theorem len_semi : (";" : String).length = 1 := rfl

/-- Helper: every run of the audit guard either returns a verdict — usable
with reason "OK", or unusable with a reason of length at least 3 (hence
never "OK") — or raises the AttributeError of the unguarded `tzinfo`
access. -/
theorem helper_audit_shape (asset sr : String) (tf mult : Int) (mr : Nat)
    (req crit : List String) (utc : Bool) (now : Int) (df : Option DFrame) :
    (∃ a, SignalGuard.audit_and_format_signal asset df sr tf mult mr req crit utc now
        = Except.ok a ∧
      ((a.data_ok = true ∧ a.reason = "OK") ∨
        (a.data_ok = false ∧ 3 ≤ a.reason.length))) ∨
    SignalGuard.audit_and_format_signal asset df sr tf mult mr req crit utc now
      = Except.error "AttributeError" := by
  rcases df with _ | d
  · refine Or.inl ⟨_, helper_audit_empty_eq asset sr tf mult mr req crit utc now none
      (Or.inl rfl), Or.inr ⟨rfl, ?_⟩⟩
    exact (by decide : 3 ≤ ("EMPTY_DF;NO_LAST_BAR" : String).length)
  · by_cases hr : d.rows = 0
    · refine Or.inl ⟨_, helper_audit_empty_eq asset sr tf mult mr req crit utc now
        (some d) (Or.inr ⟨d, rfl, hr⟩), Or.inr ⟨rfl, ?_⟩⟩
      exact (by decide : 3 ≤ ("EMPTY_DF;NO_LAST_BAR" : String).length)
    · cases hI : d.indexLast with
      | error e =>
        refine Or.inl ⟨_, helper_audit_badidx_eq asset sr tf mult mr req crit utc now
          d e hr hI, Or.inr ⟨rfl, ?_⟩⟩
        split_ifs <;>
          (simp only [joinSep, String.length_append, len_MISSING_COLS, len_HISTORY_SHORT,
             len_STALE_DATA, len_NAN_LAST_ROW, len_BAD_INDEX, len_NO_LAST_BAR,
             len_EMPTY_DF, len_semi, List.append_nil, List.cons_append, List.nil_append];
           omega)
      | ok v =>
        cases v with
        | other s =>
          exact Or.inr (by simp [SignalGuard.audit_and_format_signal, hI, hr])
        | ts t =>
          refine Or.inl ⟨_, helper_audit_sound_eq asset sr tf mult mr req crit utc now
            d t hr hI, ?_⟩
          by_cases hok : ((req.filter (fun c => !(d.cols.contains c))).isEmpty &&
              !decide (d.rows < mr) &&
              !decide (now - resolveNaiveUtc utc t > tf * mult) &&
              !(crit.any (fun c => d.cols.contains c && d.nanLast c))) = true
          · exact Or.inl ⟨hok, by simp only [if_pos hok]⟩
          · simp only [Bool.not_eq_true] at hok
            refine Or.inr ⟨hok, ?_⟩
            simp only [hok, Bool.false_eq_true, if_false]
            split_ifs <;>
              first
              | (simp only [joinSep, String.length_append, len_MISSING_COLS,
                   len_HISTORY_SHORT, len_STALE_DATA, len_NAN_LAST_ROW, len_BAD_INDEX,
                   len_NO_LAST_BAR, len_EMPTY_DF, len_semi, List.append_nil,
                   List.cons_append, List.nil_append];
                 omega)
              | simp_all

/-- Helper: every run of the main-table guard either returns a verdict —
usable with reason "OK", or unusable with a reason of length at least 3
(never "OK") — or raises the AttributeError of the unguarded `tzinfo`
access. -/
theorem helper_main_shape (tf mult : Int) (mr : Nat)
    (req crit : List String) (utc : Bool) (now : Int) (df : Option DFrame) :
    (∃ g, MainGuard.guard_intraday_df df tf mult mr req crit utc now = Except.ok g ∧
      ((g.data_ok = true ∧ g.reason = "OK") ∨
        (g.data_ok = false ∧ 3 ≤ g.reason.length))) ∨
    MainGuard.guard_intraday_df df tf mult mr req crit utc now
      = Except.error "AttributeError" := by
  rcases df with _ | d
  · refine Or.inl ⟨_, helper_main_empty_eq tf mult mr req crit utc now none (Or.inl rfl),
      Or.inr ⟨rfl, ?_⟩⟩
    exact (by decide : 3 ≤ ("EMPTY_DF" : String).length)
  · by_cases hr : d.rows = 0
    · refine Or.inl ⟨_, helper_main_empty_eq tf mult mr req crit utc now (some d)
        (Or.inr ⟨d, rfl, hr⟩), Or.inr ⟨rfl, ?_⟩⟩
      exact (by decide : 3 ≤ ("EMPTY_DF" : String).length)
    · cases hI : d.indexLast with
      | error e =>
        refine Or.inl ⟨_, helper_main_badidx_eq tf mult mr req crit utc now d e hr hI,
          Or.inr ⟨rfl, ?_⟩⟩
        exact (by decide : 3 ≤ ("BAD_INDEX" : String).length)
      | ok v =>
        cases v with
        | other s => exact Or.inr (by simp [MainGuard.guard_intraday_df, hI, hr])
        | ts t =>
          refine Or.inl ⟨_, helper_main_sound_eq tf mult mr req crit utc now d t hr hI,
            ?_⟩
          by_cases hok : ((req.filter (fun c => !(d.cols.contains c))).isEmpty &&
              !decide (d.rows < mr) &&
              !decide (now - resolveNaiveUtc utc t > tf * mult) &&
              !(crit.any (fun c => d.cols.contains c && d.nanLast c))) = true
          · exact Or.inl ⟨hok, by simp only [if_pos hok]⟩
          · simp only [Bool.not_eq_true] at hok
            refine Or.inr ⟨hok, ?_⟩
            simp only [hok, Bool.false_eq_true, if_false]
            split_ifs <;>
              first
              | (simp only [joinSep, String.length_append, len_MISSING_COLS,
                   len_HISTORY_SHORT, len_STALE_DATA, len_NAN_LAST_ROW, len_BAD_INDEX,
                   len_NO_LAST_BAR, len_EMPTY_DF, len_semi, List.append_nil,
                   List.cons_append, List.nil_append];
                 omega)
              | simp_all

/-- Helper: a string of length at least 3 is not "OK". -/
theorem helper_len_ne_OK (s : String) (h : 3 ≤ s.length) : s ≠ "OK" := by
  intro he
  subst he
  exact absurd h (by decide)

/-- C4: refuted — the guards are NOT exception-free on every malformed
input.  On a 300-row frame carrying all required columns whose last index
entry is a successfully extracted non-datetime value (e.g. the integer of
a default RangeIndex), the `try/except` around the extraction succeeds,
and the later unguarded `last_bar_dt.tzinfo` attribute access
(src/signal_guard.py line 135, src/main.py line 73) raises an uncaught
AttributeError: both guard embeddings propagate the exception instead of
returning a usable=false verdict for this enumerated malformed-input
case. -/
theorem c4_nontimestamp_index_raises :
    SignalGuard.audit_and_format_signal "GOLD"
        (some ⟨300, ["Open", "High", "Low", "Close", "Volume"],
          Except.ok (IndexVal.other "int64"), fun _ => false⟩) "BUY" 60 2 200
        ["Open", "High", "Low", "Close", "Volume"] ["Close", "Volume"] true 0
      = Except.error "AttributeError" ∧
    MainGuard.guard_intraday_df
        (some ⟨300, ["Open", "High", "Low", "Close", "Volume"],
          Except.ok (IndexVal.other "int64"), fun _ => false⟩) 60 2 200
        ["Open", "High", "Low", "Close", "Volume"] ["Close", "Volume"] true 0
      = Except.error "AttributeError" := by
  constructor <;> rfl

/-- C8: the GuardVerdict reason invariant, for both guard implementations,
over the executions that return a verdict (raising executions return no
verdict so lie outside this claim).  On a structurally sound frame (rows
present, readable last timestamp index) a verdict is returned and it is
usable iff no flag fires (missing-columns, history-short, stale,
nan-last); structural failures (absent frame, zero rows, failing index
extraction) always give a returned verdict with usable=false; every
returned verdict has reason exactly "OK" iff it is usable; and on unusable
structurally-sound frames the reason is the `;`-joined concatenation of
the triggered flags in the fixed order missing-columns, history-short,
stale, nan-last. -/
theorem c8_reason_invariant (asset sr : String) (tf mult : Int) (mr : Nat)
    (req crit : List String) (utc : Bool) (now : Int) (d : DFrame) (t : TS)
    (h0 : d.rows ≠ 0) (hidx : d.indexLast = Except.ok (IndexVal.ts t)) :
    (∃ a, SignalGuard.audit_and_format_signal asset (some d) sr tf mult mr req crit utc
        now = Except.ok a ∧
      (a.data_ok = true ↔
        ((∀ c ∈ req, c ∈ d.cols) ∧ ¬ d.rows < mr ∧
          ¬ now - resolveNaiveUtc utc t > tf * mult ∧
          ¬ ∃ c ∈ crit, c ∈ d.cols ∧ d.nanLast c = true))) ∧
    (∃ g, MainGuard.guard_intraday_df (some d) tf mult mr req crit utc now
        = Except.ok g ∧
      (g.data_ok = true ↔
        ((∀ c ∈ req, c ∈ d.cols) ∧ ¬ d.rows < mr ∧
          ¬ now - resolveNaiveUtc utc t > tf * mult ∧
          ¬ ∃ c ∈ crit, c ∈ d.cols ∧ d.nanLast c = true))) ∧
    (∀ df2 : Option DFrame, (df2 = none ∨ ∃ d2, df2 = some d2 ∧
        (d2.rows = 0 ∨ ∃ e, d2.indexLast = Except.error e)) →
      (∃ a2, SignalGuard.audit_and_format_signal asset df2 sr tf mult mr req crit utc
          now = Except.ok a2 ∧ a2.data_ok = false) ∧
      (∃ g2, MainGuard.guard_intraday_df df2 tf mult mr req crit utc now = Except.ok g2 ∧
        g2.data_ok = false)) ∧
    (∀ (df2 : Option DFrame) (a2 : SignalGuard.SignalAudit),
      SignalGuard.audit_and_format_signal asset df2 sr tf mult mr req crit utc now
          = Except.ok a2 →
        (a2.reason = "OK" ↔ a2.data_ok = true)) ∧
    (∀ (df2 : Option DFrame) (g2 : MainGuard.GuardResult),
      MainGuard.guard_intraday_df df2 tf mult mr req crit utc now = Except.ok g2 →
        (g2.reason = "OK" ↔ g2.data_ok = true)) ∧
    (∀ a2 : SignalGuard.SignalAudit,
      SignalGuard.audit_and_format_signal asset (some d) sr tf mult mr req crit utc now
          = Except.ok a2 →
        a2.data_ok = false →
        a2.reason =
          joinSep ";"
            ((if (req.filter (fun c => !(d.cols.contains c))).isEmpty then []
              else ["MISSING_COLS:" ++
                joinSep "," (req.filter (fun c => !(d.cols.contains c)))]) ++
             (if d.rows < mr then ["HISTORY_SHORT"] else []) ++
             (if now - resolveNaiveUtc utc t > tf * mult then ["STALE_DATA"] else []) ++
             (if crit.any (fun c => d.cols.contains c && d.nanLast c) then
               ["NAN_LAST_ROW"] else []))) ∧
    (∀ g2 : MainGuard.GuardResult,
      MainGuard.guard_intraday_df (some d) tf mult mr req crit utc now = Except.ok g2 →
        g2.data_ok = false →
        g2.reason =
          joinSep ";"
            ((if (req.filter (fun c => !(d.cols.contains c))).isEmpty then []
              else ["MISSING_COLS:" ++
                joinSep "," (req.filter (fun c => !(d.cols.contains c)))]) ++
             (if d.rows < mr then ["HISTORY_SHORT"] else []) ++
             (if now - resolveNaiveUtc utc t > tf * mult then ["STALE_DATA"] else []) ++
             (if crit.any (fun c => d.cols.contains c && d.nanLast c) then
               ["NAN_LAST_ROW"] else []))) := by
  refine ⟨?_, ?_, ?_, ?_, ?_, ?_, ?_⟩
  · refine ⟨_, helper_audit_sound_eq asset sr tf mult mr req crit utc now d t h0 hidx, ?_⟩
    by_cases hm : (req.filter (fun c => !(d.cols.contains c))).isEmpty <;>
    by_cases hh : d.rows < mr <;>
    by_cases hst : now - resolveNaiveUtc utc t > tf * mult <;>
    by_cases hnan : crit.any (fun c => d.cols.contains c && d.nanLast c) = true <;>
      simp_all
  · refine ⟨_, helper_main_sound_eq tf mult mr req crit utc now d t h0 hidx, ?_⟩
    by_cases hm : (req.filter (fun c => !(d.cols.contains c))).isEmpty <;>
    by_cases hh : d.rows < mr <;>
    by_cases hst : now - resolveNaiveUtc utc t > tf * mult <;>
    by_cases hnan : crit.any (fun c => d.cols.contains c && d.nanLast c) = true <;>
      simp_all
  · intro df2 hstruct
    rcases hstruct with rfl | ⟨d2, rfl, h02 | ⟨e, he⟩⟩
    · exact ⟨⟨_, helper_audit_empty_eq asset sr tf mult mr req crit utc now none
          (Or.inl rfl), rfl⟩,
        ⟨_, helper_main_empty_eq tf mult mr req crit utc now none (Or.inl rfl), rfl⟩⟩
    · exact ⟨⟨_, helper_audit_empty_eq asset sr tf mult mr req crit utc now (some d2)
          (Or.inr ⟨d2, rfl, h02⟩), rfl⟩,
        ⟨_, helper_main_empty_eq tf mult mr req crit utc now (some d2)
          (Or.inr ⟨d2, rfl, h02⟩), rfl⟩⟩
    · by_cases h02 : d2.rows = 0
      · exact ⟨⟨_, helper_audit_empty_eq asset sr tf mult mr req crit utc now (some d2)
            (Or.inr ⟨d2, rfl, h02⟩), rfl⟩,
          ⟨_, helper_main_empty_eq tf mult mr req crit utc now (some d2)
            (Or.inr ⟨d2, rfl, h02⟩), rfl⟩⟩
      · exact ⟨⟨_, helper_audit_badidx_eq asset sr tf mult mr req crit utc now d2 e
            h02 he, rfl⟩,
          ⟨_, helper_main_badidx_eq tf mult mr req crit utc now d2 e h02 he, rfl⟩⟩
  · intro df2 a2 ha2
    rcases helper_audit_shape asset sr tf mult mr req crit utc now df2 with
      ⟨a, ha, hP⟩ | herr
    · rw [ha, Except.ok.injEq] at ha2
      subst ha2
      rcases hP with ⟨hok, hre⟩ | ⟨hfa, hlen⟩
      · exact ⟨fun _ => hok, fun _ => hre⟩
      · exact ⟨fun h => absurd h (helper_len_ne_OK _ hlen),
          fun h => by rw [hfa] at h; cases h⟩
    · rw [herr] at ha2
      cases ha2
  · intro df2 g2 hg2
    rcases helper_main_shape tf mult mr req crit utc now df2 with ⟨g, hg, hP⟩ | herr
    · rw [hg, Except.ok.injEq] at hg2
      subst hg2
      rcases hP with ⟨hok, hre⟩ | ⟨hfa, hlen⟩
      · exact ⟨fun _ => hok, fun _ => hre⟩
      · exact ⟨fun h => absurd h (helper_len_ne_OK _ hlen),
          fun h => by rw [hfa] at h; cases h⟩
    · rw [herr] at hg2
      cases hg2
  · intro a2 ha2 hfalse
    rw [helper_audit_sound_eq asset sr tf mult mr req crit utc now d t h0 hidx,
      Except.ok.injEq] at ha2
    subst ha2
    have hb : ((req.filter (fun c => !(d.cols.contains c))).isEmpty &&
        !decide (d.rows < mr) &&
        !decide (now - resolveNaiveUtc utc t > tf * mult) &&
        !(crit.any (fun c => d.cols.contains c && d.nanLast c))) = false := hfalse
    simp only [hb, Bool.false_eq_true, if_false]
  · intro g2 hg2 hfalse
    rw [helper_main_sound_eq tf mult mr req crit utc now d t h0 hidx,
      Except.ok.injEq] at hg2
    subst hg2
    have hb : ((req.filter (fun c => !(d.cols.contains c))).isEmpty &&
        !decide (d.rows < mr) &&
        !decide (now - resolveNaiveUtc utc t > tf * mult) &&
        !(crit.any (fun c => d.cols.contains c && d.nanLast c))) = false := hfalse
    simp only [hb, Bool.false_eq_true, if_false]

/-- C5 witness: a 300-row frame whose last bar is 1000 seconds old against
a 120-second threshold is flagged stale and blocked by both guards; at
exactly 120 seconds of age the stale flag is not set. -/
theorem c5_staleness_witness :
    ∃ a g a2,
      SignalGuard.audit_and_format_signal "GOLD"
          (some ⟨300, ["Open"], Except.ok (IndexVal.ts (TS.aware 0)), fun _ => false⟩)
          "BUY" 60 2 200 ["Open"] ["Close"] true 1000 = Except.ok a ∧
      MainGuard.guard_intraday_df
          (some ⟨300, ["Open"], Except.ok (IndexVal.ts (TS.aware 0)), fun _ => false⟩)
          60 2 200 ["Open"] ["Close"] true 1000 = Except.ok g ∧
      a.stale = 1 ∧ g.data_ok = false ∧
      SignalGuard.audit_and_format_signal "GOLD"
          (some ⟨300, ["Open"], Except.ok (IndexVal.ts (TS.aware 0)), fun _ => false⟩)
          "BUY" 60 2 200 ["Open"] ["Close"] true 120 = Except.ok a2 ∧
      a2.stale = 0 := by
  obtain ⟨a, g, ha, hg, hover, -, -⟩ :=
    c5_staleness "GOLD" "BUY" 60 2 200 ["Open"] ["Close"] true 1000
      ⟨300, ["Open"], Except.ok (IndexVal.ts (TS.aware 0)), fun _ => false⟩ (TS.aware 0)
      (by decide) rfl (by decide)
  obtain ⟨a2, g2, ha2, hg2, -, heq2, -⟩ :=
    c5_staleness "GOLD" "BUY" 60 2 200 ["Open"] ["Close"] true 120
      ⟨300, ["Open"], Except.ok (IndexVal.ts (TS.aware 0)), fun _ => false⟩ (TS.aware 0)
      (by decide) rfl (by decide)
  obtain ⟨hs, -, -, -, hgdo, -⟩ := hover (by decide)
  exact ⟨a, g, a2, ha, hg, hs, hgdo, ha2, (heq2 (by decide)).1⟩

/-- C8 witness: a sound 300-row frame with all required columns, a fresh
last bar and no NaN gets a returned verdict that is usable with reason
exactly "OK" in both guards. -/
theorem c8_reason_invariant_witness :
    ∃ a g,
      SignalGuard.audit_and_format_signal "GOLD"
          (some ⟨300, ["Open", "Close"], Except.ok (IndexVal.ts (TS.aware 0)),
            fun _ => false⟩) "BUY" 60 2 200 ["Open", "Close"] ["Close"] true 0
        = Except.ok a ∧
      MainGuard.guard_intraday_df
          (some ⟨300, ["Open", "Close"], Except.ok (IndexVal.ts (TS.aware 0)),
            fun _ => false⟩) 60 2 200 ["Open", "Close"] ["Close"] true 0
        = Except.ok g ∧
      a.data_ok = true ∧ a.reason = "OK" ∧ g.data_ok = true := by
  obtain ⟨⟨a, ha, h1⟩, ⟨g, hg, h2⟩, -, h4, -, -, -⟩ :=
    c8_reason_invariant "GOLD" "BUY" 60 2 200 ["Open", "Close"] ["Close"] true 0
      ⟨300, ["Open", "Close"], Except.ok (IndexVal.ts (TS.aware 0)), fun _ => false⟩
      (TS.aware 0) (by decide) rfl
  have hA := h1.mpr (by decide)
  exact ⟨a, g, ha, hg, hA,
    (h4 (some ⟨300, ["Open", "Close"], Except.ok (IndexVal.ts (TS.aware 0)),
      fun _ => false⟩) a ha).mpr hA, h2.mpr (by decide)⟩

/-- C1: the guard-says-no override in `forecast_asset`: whenever the
verdict has data_ok=false the pipeline produces the blocked result —
terminal action "NO_TRADE(DATA)", score and both trend fields zero, raw
signal "NO_TRADE", the Guard's reason carried verbatim in `guard_reason`
and prefixed with "DATA BLOCK: " in `zusatzinfo` — and ScoreModel,
TrendSignal and DecisionEngine are never invoked: the result is identical
for every choice of the three downstream components. -/
theorem c1_guard_override (asset bias : String) (guard : ForecastAssets.GuardX)
    (close? : Option ℚ) (scoreFn : Unit → ℚ) (trendFn : Nat → ℚ)
    (decideFn : String → ℚ → ℚ → ℚ → String → ForecastAssets.Decision)
    (h : guard.data_ok = false) :
    (ForecastAssets.forecast_asset asset bias guard close? scoreFn trendFn
      decideFn).final = "NO_TRADE(DATA)" ∧
    (ForecastAssets.forecast_asset asset bias guard close? scoreFn trendFn
      decideFn).score = 0 ∧
    (ForecastAssets.forecast_asset asset bias guard close? scoreFn trendFn
      decideFn).f_1_5 = 0 ∧
    (ForecastAssets.forecast_asset asset bias guard close? scoreFn trendFn
      decideFn).f_2_3 = 0 ∧
    (ForecastAssets.forecast_asset asset bias guard close? scoreFn trendFn
      decideFn).signal = "NO_TRADE" ∧
    (ForecastAssets.forecast_asset asset bias guard close? scoreFn trendFn
      decideFn).guard_reason = guard.reason ∧
    (ForecastAssets.forecast_asset asset bias guard close? scoreFn trendFn
      decideFn).zusatzinfo = "DATA BLOCK: " ++ guard.reason ∧
    (∀ (scoreFn2 : Unit → ℚ) (trendFn2 : Nat → ℚ)
      (decideFn2 : String → ℚ → ℚ → ℚ → String → ForecastAssets.Decision),
      ForecastAssets.forecast_asset asset bias guard close? scoreFn2 trendFn2 decideFn2 =
        ForecastAssets.forecast_asset asset bias guard close? scoreFn trendFn decideFn) := by
  simp [ForecastAssets.forecast_asset, h]

/-- C1 witness: a stale-blocked verdict at concrete inputs. -/
theorem c1_guard_override_witness :
    (ForecastAssets.forecast_asset "GOLD" "STRONG_SUPPORT"
      ⟨false, "STALE_DATA", "NA", 999, 10, 0, 1, 86400⟩ (some 100)
      (fun _ => 0.9) (fun _ => 1) (fun _ _ _ _ _ => ⟨"LONG", "OK", "OK", "GO", "x"⟩)).final
      = "NO_TRADE(DATA)" ∧
    (ForecastAssets.forecast_asset "GOLD" "STRONG_SUPPORT"
      ⟨false, "STALE_DATA", "NA", 999, 10, 0, 1, 86400⟩ (some 100)
      (fun _ => 0.9) (fun _ => 1) (fun _ _ _ _ _ => ⟨"LONG", "OK", "OK", "GO", "x"⟩)).score
      = 0 ∧
    (ForecastAssets.forecast_asset "GOLD" "STRONG_SUPPORT"
      ⟨false, "STALE_DATA", "NA", 999, 10, 0, 1, 86400⟩ (some 100)
      (fun _ => 0.9) (fun _ => 1)
      (fun _ _ _ _ _ => ⟨"LONG", "OK", "OK", "GO", "x"⟩)).guard_reason = "STALE_DATA" := by
  obtain ⟨h1, h2, -, -, -, h6, -, -⟩ :=
    c1_guard_override "GOLD" "STRONG_SUPPORT"
      ⟨false, "STALE_DATA", "NA", 999, 10, 0, 1, 86400⟩ (some 100)
      (fun _ => 0.9) (fun _ => 1) (fun _ _ _ _ _ => ⟨"LONG", "OK", "OK", "GO", "x"⟩) rfl
  exact ⟨h1, h2, h6⟩

/-- C7: orchestrator isolation: `run_all` is a total function — no
exception escapes the batch — that processes every configured asset: it
returns exactly one result per entry of ASSETS, the asset names appear in
order (under the contract that a successful per-asset computation labels
its result with its own asset, as `forecast_asset` does), a successful
asset's result is returned unchanged, and a failing asset yields the error
result with terminal action "NO_TRADE(ERROR)" and a short description of
the failure. -/
theorem c7_isolation
    (fa : String → String → String →
      Except ForecastAssets.PyErr ForecastAssets.ForecastResult)
    (hfa : ∀ a t m r, fa a t m = Except.ok r → r.asset = a) :
    (ForecastAssets.run_all fa).length = 4 ∧
    (ForecastAssets.run_all fa).map (fun r => r.asset) =
      ["GOLD", "SILVER", "NATURAL GAS", "COPPER"] ∧
    (∀ a t m r, (a, t, m) ∈ ForecastAssets.ASSETS → fa a t m = Except.ok r →
      r ∈ ForecastAssets.run_all fa) ∧
    (∀ a t m e, (a, t, m) ∈ ForecastAssets.ASSETS → fa a t m = Except.error e →
      ({ asset := a, close := none, score := 0, signal := "NO_TRADE", f_1_5 := 0,
         f_2_3 := 0, gpt_1_5d := "NA", gpt_2_3w := "NA", final := "NO_TRADE(ERROR)",
         zusatzinfo := "ERROR: " ++ e.name ++ ": " ++ e.msg, data_ok := false,
         last_bar_utc := "NA", age_s := 10 ^ 9, rows := 0, nan_last := 1, stale := 1,
         timeframe_s := 0, guard_reason := "ERROR: " ++ e.name } :
        ForecastAssets.ForecastResult) ∈ ForecastAssets.run_all fa) := by
  refine ⟨by simp [ForecastAssets.run_all, ForecastAssets.ASSETS], ?_, ?_, ?_⟩
  · simp only [ForecastAssets.run_all, ForecastAssets.ASSETS, List.map_cons,
      List.map_nil, List.cons.injEq, and_true]
    refine ⟨?_, ?_, ?_, ?_⟩ <;>
      first
      | (cases hg : fa "GOLD" "GC=F" "STRONG_SUPPORT" with
          | ok r => simp [hfa _ _ _ _ hg]
          | error e => rfl)
      | (cases hg : fa "SILVER" "SI=F" "NO_SUPPORT" with
          | ok r => simp [hfa _ _ _ _ hg]
          | error e => rfl)
      | (cases hg : fa "NATURAL GAS" "NG=F" "STRONG_SUPPORT" with
          | ok r => simp [hfa _ _ _ _ hg]
          | error e => rfl)
      | (cases hg : fa "COPPER" "HG=F" "STRONG_SUPPORT" with
          | ok r => simp [hfa _ _ _ _ hg]
          | error e => rfl)
  · intro a t m r hmem hok
    exact List.mem_map.mpr ⟨(a, t, m), hmem, by simp [hok]⟩
  · intro a t m e hmem herr
    exact List.mem_map.mpr ⟨(a, t, m), hmem, by simp [herr]⟩

/-- C7 witness: a per-asset computation that always raises RuntimeError
still yields four results, one per asset, each the error result. -/
theorem c7_isolation_witness :
    (ForecastAssets.run_all
      (fun _ _ _ => Except.error ⟨"RuntimeError", "boom"⟩)).length = 4 ∧
    (ForecastAssets.run_all
      (fun _ _ _ => Except.error ⟨"RuntimeError", "boom"⟩)).map (fun r => r.asset) =
      ["GOLD", "SILVER", "NATURAL GAS", "COPPER"] ∧
    ({ asset := "SILVER", close := none, score := 0, signal := "NO_TRADE", f_1_5 := 0,
       f_2_3 := 0, gpt_1_5d := "NA", gpt_2_3w := "NA", final := "NO_TRADE(ERROR)",
       zusatzinfo := "ERROR: " ++ "RuntimeError" ++ ": " ++ "boom", data_ok := false,
       last_bar_utc := "NA", age_s := 10 ^ 9, rows := 0, nan_last := 1, stale := 1,
       timeframe_s := 0, guard_reason := "ERROR: " ++ "RuntimeError" } :
      ForecastAssets.ForecastResult) ∈
      ForecastAssets.run_all (fun _ _ _ => Except.error ⟨"RuntimeError", "boom"⟩) := by
  obtain ⟨h1, h2, -, h4⟩ :=
    c7_isolation (fun _ _ _ => Except.error ⟨"RuntimeError", "boom"⟩)
      (fun a t m r h => by cases h)
  exact ⟨h1, h2,
    h4 "SILVER" "SI=F" "NO_SUPPORT" ⟨"RuntimeError", "boom"⟩ (by decide) rfl⟩
